import Mathlib

/-!
Shallow embedding of the analytics ingestion / aggregation subsystem of the
EcomAPI repository (Go, gin + ClickHouse), covering:

  * `utils/helpers.go`          — `IsValidInterval`
  * `models/event.go`           — `AnalyticsEvent`, `TopPathResult`
  * `store/analytics_store.go`  — `InsertAnalyticsEvents`,
    `GetEventCountsOverTime`, `GetAverageEventDuration`,
    `GetAverageCustomEventParameter`, `GetUniqueUsersOverTime`,
    `GetTopNPagePaths`
  * `handlers/track_handlers.go` and the revision of the same handlers file
    shipped unnamed — `TrackEvent` normalization loop, `GetTopNPagePaths`
    limit parsing.

Conventions of the embedding:
  * `time.Time` values are modelled as `Nat` (a monotone instant, e.g. Unix
    nanoseconds); the ClickHouse `toStartOf<Interval>` truncation is an
    external builtin and is passed in as an explicit function `bucketOf`.
  * Server-side nondeterminism consumed by the `TrackEvent` normalization
    loop (`uuid.New()` draws and `time.Now()` reads) is modelled as
    call-indexed oracle functions in a `RequestCtx`: the i-th loop iteration
    performs the i-th draw / read.
  * The database appears at two levels: a relational semantics of the
    generated SQL over a `List AnalyticsEvent` table (for properties about
    what the queries compute), and a raw-row level where the driver hands
    back `List DBValue` rows that may fail to scan (for properties about the
    scan loops). `float64` values scanned from an average are modelled as
    `GoFloat`, which is either NaN or an exact value.
  * Go `error` returns are modelled with `Except String`.
-/

/-- The SQL single-quote character (U+0027), used when the store splices a
caller-supplied parameter name into query text. -/
def sqlQuote : String := String.singleton (Char.ofNat 39)

/-- Record shape of `models.AnalyticsEvent` (`models/event.go`).  The opaque
`json.RawMessage` blobs (`Products`, `EventData`) are kept as raw strings. -/
structure AnalyticsEvent where
  eventID : String
  eventType : String
  userID : String
  sessionID : String
  timestamp : Nat
  pagePath : String
  referrer : String
  userAgent : String
  ipAddress : String
  durationMs : Int
  products : String
  location : String
  eventData : String
  deriving DecidableEq, Repr

/-- Record shape of `store.EventTypeCountByTime` (`store/analytics_store.go`):
bucket time, optional event-type dimension (a nil pointer in Go when the
query was unfiltered), and a count. -/
structure EventTypeCountByTime where
  time : Nat
  eventType : Option String
  count : Nat
  deriving DecidableEq, Repr

/-- Record shape of `models.TopPathResult` (`models/event.go`). -/
structure TopPathResult where
  pagePath : String
  count : Nat
  deriving DecidableEq, Repr

/-- `utils.IsValidInterval` (`utils/helpers.go`): the switch over the seven
accepted interval names. -/
def IsValidInterval (interval : String) : Bool :=
  interval == "Minute" || interval == "Hour" || interval == "Day" ||
    interval == "Week" || interval == "Month" || interval == "Quarter" ||
    interval == "Year"

/-- Go `strconv.ParseUint(s, 10, 64)`: fails on the empty string, on any
non-digit character (base 10 admits no sign and no underscores), and on
overflow past `2^64 - 1`; otherwise yields the decimal value. -/
def parseUint64 (s : String) : Option Nat :=
  let cs := s.toList
  if cs.isEmpty then none
  else if cs.all (fun c => c.isDigit) then
    let n := cs.foldl (fun a c => a * 10 + (c.toNat - 48)) 0
    if n < 2 ^ 64 then some n else none
  else none

/-- Limit parsing of handler `GetTopNPagePaths`
(`handlers/track_handlers.go` lines 289-298): the `limit` query parameter
defaults to 10 when absent (gin yields `""`); a present value is parsed with
`ParseUint` and a parse error or a parsed value of 0 is a 400 validation
failure. -/
def topPathLimit (limitParam : String) : Except String Nat :=
  if limitParam == "" then Except.ok 10
  else
    match parseUint64 limitParam with
    | none => Except.error "Invalid limit parameter. Must be a positive integer."
    | some n =>
        if n == 0 then Except.error "Invalid limit parameter. Must be a positive integer."
        else Except.ok n

/-- Limit defaulting at the top of `store.GetTopNPagePaths`
(`store/analytics_store.go` lines 258-261): a limit of 0 is replaced by 10,
any other value is used as passed. -/
def getTopNPagePathsLimit (limit : Nat) : Nat :=
  if limit == 0 then 10 else limit

/-- Server-side context consumed by the `TrackEvent` normalization loop of
the unnamed handlers revision: the authenticated identity from the gin
context (`c.GetString "user_id"`), the transport-observed caller address
(`c.ClientIP()`), and call-indexed oracles for `uuid.New()` and
`time.Now().UTC()`. -/
structure RequestCtx where
  userId : String
  clientIP : String
  uuids : Nat → String
  clock : Nat → Nat

/-- Body of the `TrackEvent` normalization loop (unnamed handlers revision,
lines 44-53) for the i-th incoming event: assign a fresh id, capture the
caller address, replace the actor id by the server identity only when the
client-supplied actor id is non-empty, and stamp `time.Now()` read at this
iteration. -/
def normalizeEvent (ctx : RequestCtx) (i : Nat) (event : AnalyticsEvent) : AnalyticsEvent :=
  { event with
    eventID := ctx.uuids i
    ipAddress := ctx.clientIP
    userID := if event.userID == "" then event.userID else ctx.userId
    timestamp := ctx.clock i }

/-- The whole `TrackEvent` normalization loop: each incoming event is
normalized with the oracle draws of its own iteration, in order. -/
def normalizeBatch (ctx : RequestCtx) (events : List AnalyticsEvent) : List AnalyticsEvent :=
  events.enum.map (fun p => normalizeEvent ctx p.1 p.2)

/-- Handler `TrackEvent` after a successful JSON bind: an empty batch
returns 200 with no store call (`none`); otherwise the normalized batch is
handed to `InsertAnalyticsEvents` (`some`), and the response is 200 on
success and 500 on store failure. -/
def trackEvent (ctx : RequestCtx) (insertOk : Bool) (incomingEvents : List AnalyticsEvent) :
    Nat × Option (List AnalyticsEvent) :=
  if incomingEvents.length == 0 then (200, none)
  else
    let eventsToInsert := normalizeBatch ctx incomingEvents
    if insertOk then (200, some eventsToInsert) else (500, some eventsToInsert)

/-- `store.InsertAnalyticsEvents` (`store/analytics_store.go` lines 32-77):
an empty batch returns nil immediately, before `PrepareBatch`, so no batch
operation is issued (`none`).  For a non-empty batch a batch-append is
prepared (which may fail), each record is appended individually and a failed
append is logged and skipped, and the batch is sent as one unit. -/
def insertAnalyticsEvents (prepareOk : Bool) (appendOk : AnalyticsEvent → Bool)
    (sendOk : Bool) (events : List AnalyticsEvent) :
    Except String (Option (List AnalyticsEvent)) :=
  if events.length == 0 then Except.ok none
  else if !prepareOk then Except.error "failed to prepare batch insert"
  else if sendOk then Except.ok (some (events.filter appendOk))
  else Except.error "failed to send batch"

/-- Go `float64` as scanned from an average: either NaN (what ClickHouse
`avg()` yields over zero rows) or an exact numeric value.  Infinities play
no role in the claims and are subsumed under `val`. -/
inductive GoFloat where
  | nan : GoFloat
  | val : ℚ → GoFloat
  deriving DecidableEq, Repr

/-- Mirror of `math.IsNaN` on the `GoFloat` model. -/
def GoFloat.isNaN : GoFloat → Bool
  | GoFloat.nan => true
  | GoFloat.val _ => false

/-- Outcome of `QueryRow(...).Scan(&v)` for a scalar `float64` query: the
driver may report the specific no-rows error, some other error, or succeed
with a value. -/
inductive ScanResult where
  | noRows : ScanResult
  | err : String → ScanResult
  | ok : GoFloat → ScanResult
  deriving DecidableEq, Repr

/-- `store.GetAverageEventDuration` (`store/analytics_store.go` lines
154-178) after the query is issued: the no-rows error maps to 0, any other
error is propagated, and a scanned value — NaN included — is returned
unchanged.  This function performs no NaN check. -/
def getAverageEventDuration (scan : ScanResult) : Except String GoFloat :=
  match scan with
  | ScanResult.noRows => Except.ok (GoFloat.val 0)
  | ScanResult.err m => Except.error ("failed to query average event duration: " ++ m)
  | ScanResult.ok v => Except.ok v

/-- Head of the query text that `store.GetAverageCustomEventParameter`
builds with `fmt.Sprintf` (lines 187-191), up to the opening quote around
the spliced parameter name. -/
def avgCustomParamQueryHead : String :=
  "SELECT avg(JSONExtractFloat(toString(event_data), " ++ sqlQuote

/-- Tail of the same query text, from the closing quote after the spliced
parameter name. -/
def avgCustomParamQueryTail : String :=
  sqlQuote ++ ")) FROM analytics_events WHERE event_type = ? AND timestamp >= ? AND timestamp <= ?"

/-- Query text of `store.GetAverageCustomEventParameter`: the `%s` of the
`fmt.Sprintf` template is replaced by the caller-supplied parameter name,
verbatim and unescaped, between single quotes. -/
def avgCustomParamQueryText (paramName : String) : String :=
  avgCustomParamQueryHead ++ paramName ++ avgCustomParamQueryTail

/-- `store.GetAverageCustomEventParameter` (`store/analytics_store.go` lines
180-215): an empty parameter name is rejected; otherwise the query text with
the name spliced in is executed (`db` maps issued query text to the scan
outcome), the no-rows error maps to 0, and a scanned NaN is normalized to 0
before return. -/
def getAverageCustomEventParameter (db : String → ScanResult) (paramName : String) :
    Except String GoFloat :=
  if paramName == "" then
    Except.error "parameter name for average calculation cannot be empty"
  else
    match db (avgCustomParamQueryText paramName) with
    | ScanResult.noRows => Except.ok (GoFloat.val 0)
    | ScanResult.err m =>
        Except.error ("failed to query average of custom event parameter: " ++ m)
    | ScanResult.ok avgValue =>
        if avgValue.isNaN then Except.ok (GoFloat.val 0) else Except.ok avgValue

/-- Modelled from the spec: the "identifier allow-list" that §4.3 says a
caller-supplied field name must pass "before being embedded in the query, to
prevent injection via caller-controlled field names", read with §9's
"allow-listed character set" — a non-empty name of alphanumeric or
underscore characters.  No such check exists in the repository; this
definition states the claimed check. -/
def isAllowedIdentifier (s : String) : Bool :=
  !s.isEmpty && s.toList.all (fun c => c.isAlphanum || c == Char.ofNat 95)

/-- Relational semantics of the event-count query built by
`store.GetEventCountsOverTime` (lines 88-109) over an event table, fused
with the scan loop of lines 117-145: rows of events in the closed time range
(and matching `event_type` when a filter is supplied) are grouped by time
bucket — and additionally by `event_type` when filtering — counted, and
mapped to `EventTypeCountByTime` with the dimension pointer set from the
scanned group key when filtering and explicitly nil otherwise.  Row order
(`ORDER BY`) is not modelled; the claims over these rows are
order-insensitive. -/
def eventCountsQueryRows (bucketOf : Nat → Nat) (table : List AnalyticsEvent)
    (start fin : Nat) (eventTypeFilter : String) : List EventTypeCountByTime :=
  let isFilteringByType := eventTypeFilter != ""
  let matching := table.filter (fun e =>
    decide (start ≤ e.timestamp) && decide (e.timestamp ≤ fin) &&
      (!isFilteringByType || e.eventType == eventTypeFilter))
  if isFilteringByType then
    let keys := (matching.map (fun e => (bucketOf e.timestamp, e.eventType))).dedup
    keys.map (fun k =>
      { time := k.1
        eventType := some k.2
        count := (matching.filter (fun e =>
          bucketOf e.timestamp == k.1 && e.eventType == k.2)).length })
  else
    let keys := (matching.map (fun e => bucketOf e.timestamp)).dedup
    keys.map (fun b =>
      { time := b
        eventType := none
        count := (matching.filter (fun e => bucketOf e.timestamp == b)).length })

/-- `store.GetEventCountsOverTime` (lines 79-152) at the relational level:
the interval is validated before any query is built or issued; on a valid
interval the built query runs over the table and the scanned rows are
returned. -/
def getEventCountsOverTime (bucketOf : Nat → Nat) (table : List AnalyticsEvent)
    (interval : String) (start fin : Nat) (eventTypeFilter : String) :
    Except String (List EventTypeCountByTime) :=
  if !IsValidInterval interval then Except.error ("invalid interval: " ++ interval)
  else Except.ok (eventCountsQueryRows bucketOf table start fin eventTypeFilter)

/-- Relational semantics of the unique-user query built by
`store.GetUniqueUsersOverTime` (lines 222-228), fused with its scan loop:
events in the closed time range are grouped by time bucket and each bucket
reports `uniq(user_id)`, the number of distinct actor ids; the dimension is
left nil. -/
def uniqueUsersQueryRows (bucketOf : Nat → Nat) (table : List AnalyticsEvent)
    (start fin : Nat) : List EventTypeCountByTime :=
  let matching := table.filter (fun e =>
    decide (start ≤ e.timestamp) && decide (e.timestamp ≤ fin))
  let buckets := (matching.map (fun e => bucketOf e.timestamp)).dedup
  buckets.map (fun b =>
    { time := b
      eventType := none
      count := ((matching.filter (fun e => bucketOf e.timestamp == b)).map
        (fun e => e.userID)).dedup.length })

/-- `store.GetUniqueUsersOverTime` (lines 217-256) at the relational level:
the interval is validated before any query is built or issued. -/
def getUniqueUsersOverTime (bucketOf : Nat → Nat) (table : List AnalyticsEvent)
    (interval : String) (start fin : Nat) :
    Except String (List EventTypeCountByTime) :=
  if !IsValidInterval interval then Except.error ("invalid interval: " ++ interval)
  else Except.ok (uniqueUsersQueryRows bucketOf table start fin)

/-- A raw column value handed back by the driver before `rows.Scan`: a
timestamp, an unsigned integer, or a string.  A row is a list of such
values; `Scan` fails when arity or column types disagree with the scan
targets. -/
inductive DBValue where
  | vTime : Nat → DBValue
  | vUInt : Nat → DBValue
  | vStr : String → DBValue
  deriving DecidableEq, Repr

/-- One `rows.Scan` of the event-count loop (`store/analytics_store.go`
lines 126-140): with a type filter the row must scan into (time, uint,
string) and the dimension pointer is set to the scanned string; without a
filter it must scan into (time, uint) and the dimension is explicitly nil.
Any mismatch is a scan error (`none`). -/
def scanEventCountRow (isFilteringByType : Bool) (row : List DBValue) :
    Option EventTypeCountByTime :=
  if isFilteringByType then
    match row with
    | [DBValue.vTime tb, DBValue.vUInt c, DBValue.vStr et] =>
        some { time := tb, eventType := some et, count := c }
    | _ => none
  else
    match row with
    | [DBValue.vTime tb, DBValue.vUInt c] =>
        some { time := tb, eventType := none, count := c }
    | _ => none

/-- One `rows.Scan` of the unique-user loop (lines 237-243): the row must
scan into (time, uint). -/
def scanUniqueUsersRow (row : List DBValue) : Option EventTypeCountByTime :=
  match row with
  | [DBValue.vTime tb, DBValue.vUInt c] =>
      some { time := tb, eventType := none, count := c }
  | _ => none

/-- One `rows.Scan` of the top-path loop (lines 278-289): the row must scan
into (string, uint). -/
def scanTopPathRow (row : List DBValue) : Option TopPathResult :=
  match row with
  | [DBValue.vStr p, DBValue.vUInt c] => some { pagePath := p, count := c }
  | _ => none

/-- The shared shape of the three `for rows.Next()` loops: a row whose
`Scan` fails is logged and skipped with `continue`, a row that scans is
appended to the results, and iteration proceeds either way. -/
def scanLoop (scan : α → Option β) : List α → List β
  | [] => []
  | row :: rest =>
      match scan row with
      | some r => r :: scanLoop scan rest
      | none => scanLoop scan rest

/-- Row consumption of `store.GetEventCountsOverTime` at the driver level
(lines 117-149): the scan loop runs to completion over the returned rows,
then `rows.Err()` is checked and a non-nil iteration error fails the query;
scan failures never set `rows.Err()`. -/
def execEventCountsScan (isFilteringByType : Bool) (raw : List (List DBValue))
    (rowsErr : Option String) : Except String (List EventTypeCountByTime) :=
  match rowsErr with
  | some m => Except.error ("row error during event counts over time query: " ++ m)
  | none => Except.ok (scanLoop (scanEventCountRow isFilteringByType) raw)

/-- Row consumption of `store.GetUniqueUsersOverTime` at the driver level
(lines 236-253). -/
def execUniqueUsersScan (raw : List (List DBValue)) (rowsErr : Option String) :
    Except String (List EventTypeCountByTime) :=
  match rowsErr with
  | some m => Except.error ("error iterating rows for unique users: " ++ m)
  | none => Except.ok (scanLoop scanUniqueUsersRow raw)

/-- Row consumption of `store.GetTopNPagePaths` at the driver level (lines
277-293). -/
def execTopPathsScan (raw : List (List DBValue)) (rowsErr : Option String) :
    Except String (List TopPathResult) :=
  match rowsErr with
  | some m => Except.error ("error iterating rows for top page paths: " ++ m)
  | none => Except.ok (scanLoop scanTopPathRow raw)

/-- Concrete request context used by witnesses: a resolved server identity,
a transport-observed address, and a clock that advances by one unit per
read. -/
def sampleCtx : RequestCtx :=
  { userId := "user-42"
    clientIP := "203.0.113.7"
    uuids := fun i => "uuid-" ++ toString i
    clock := fun i => 1000 + i }

/-- Concrete incoming event whose client-supplied actor id is empty. -/
def sampleEventAnon : AnalyticsEvent :=
  { eventID := "client-chosen-id", eventType := "page_view", userID := ""
    sessionID := "sess-1", timestamp := 5, pagePath := "/home", referrer := ""
    userAgent := "ua", ipAddress := "10.0.0.1", durationMs := 12
    products := "", location := "IN", eventData := "" }

/-- Concrete incoming event whose client-supplied actor id is non-empty. -/
def sampleEventNamed : AnalyticsEvent :=
  { sampleEventAnon with userID := "client-claimed-user" }

/-- Concrete caller-supplied field name that fails the identifier allow-list
(it holds a quote, spaces and parentheses). -/
def injectionParamName : String :=
  "revenue" ++ sqlQuote ++ ") FROM analytics_events WHERE 1=1 --"

/-- The three scan loops distribute over list append. -/
theorem scanLoop_append {α β : Type} (scan : α → Option β) (xs ys : List α) :
    scanLoop scan (xs ++ ys) = scanLoop scan xs ++ scanLoop scan ys := by
  induction xs with
  | nil => rfl
  | cons x xs ih =>
      simp only [List.cons_append, scanLoop]
      cases scan x <;> simp [ih]

/-- A scan loop never returns more rows than the driver produced. -/
theorem scanLoop_length_le {α β : Type} (scan : α → Option β) (xs : List α) :
    (scanLoop scan xs).length ≤ xs.length := by
  induction xs with
  | nil => simp [scanLoop]
  | cons x xs ih =>
      simp only [scanLoop]
      cases scan x
      · exact Nat.le_succ_of_le ih
      · simpa using Nat.succ_le_succ ih

/-- Element i of a normalized batch is the i-th incoming event normalized
with the oracle draws of iteration i. -/
theorem normalizeBatch_get (ctx : RequestCtx) (events : List AnalyticsEvent)
    (i : Nat) (h : i < events.length) (h2 : i < (normalizeBatch ctx events).length) :
    (normalizeBatch ctx events).get ⟨i, h2⟩
      = normalizeEvent ctx i (events.get ⟨i, h⟩) := by
  simp [normalizeBatch, List.get_eq_getElem, List.getElem_enum]

/-- Actor-id field of one normalized event, written propositionally. -/
theorem normalizeEvent_userID (ctx : RequestCtx) (i : Nat) (e : AnalyticsEvent) :
    (normalizeEvent ctx i e).userID
      = if e.userID = "" then e.userID else ctx.userId := by
  simp only [normalizeEvent]
  by_cases h : e.userID = "" <;> simp [h]

/-- Normalization is insensitive to the client-supplied origin-address
field: it is overwritten before anything reads it. -/
theorem normalizeEvent_ip_invariant (ctx : RequestCtx) (i : Nat)
    (e : AnalyticsEvent) (v : String) :
    normalizeEvent ctx i { e with ipAddress := v } = normalizeEvent ctx i e := by
  cases e
  rfl

set_option maxRecDepth 4000 in
/-- C1: the claim states that a caller-supplied field name must pass an
identifier allow-list before being embedded in the averageParam query text.
The code has no such check: `GetAverageCustomEventParameter` validates only
non-emptiness and splices the name verbatim into the query with
`fmt.Sprintf`.  At a concrete name that fails the allow-list, the function
is not rejected — it issues exactly the query text holding the malicious
name and returns the scan result of that query. -/
theorem avgCustomParam_embeds_unvalidated_name :
    isAllowedIdentifier injectionParamName = false ∧
    getAverageCustomEventParameter
        (fun q => if q == avgCustomParamQueryText injectionParamName
            then ScanResult.ok (GoFloat.val 7) else ScanResult.err "unexpected query")
        injectionParamName = Except.ok (GoFloat.val 7) := by
  constructor
  · decide
  · rfl

/-- C2 (counterexample): the claim states every average-metric query maps a
NaN raw result to 0.  `GetAverageEventDuration` has no NaN check: a NaN
scanned from the store is returned as-is, and NaN is not 0. -/
theorem avgDuration_returns_nan_counterexample :
    getAverageEventDuration (ScanResult.ok GoFloat.nan) = Except.ok GoFloat.nan ∧
    GoFloat.nan ≠ GoFloat.val 0 := by
  constructor
  · rfl
  · decide

/-- C2 (amended): only the custom-parameter average normalizes NaN — every
successful `GetAverageCustomEventParameter` result is non-NaN — while
`GetAverageEventDuration` returns any successfully scanned value unchanged,
NaN included. -/
theorem avg_nan_normalization_amended :
    (∀ (db : String → ScanResult) (paramName : String) (v : GoFloat),
        getAverageCustomEventParameter db paramName = Except.ok v →
          v.isNaN = false) ∧
    (∀ v : GoFloat, getAverageEventDuration (ScanResult.ok v) = Except.ok v) := by
  constructor
  · intro db paramName v h
    unfold getAverageCustomEventParameter at h
    split at h
    · exact absurd h (by simp)
    · cases hdb : db (avgCustomParamQueryText paramName) <;> rw [hdb] at h
      case noRows =>
        injection h with h
        rw [← h]
        rfl
      case err m => exact Except.noConfusion h
      case ok w =>
        by_cases hw : w.isNaN <;> simp [hw] at h <;> rw [← h]
        · rfl
        · simpa using hw
  · intro v
    rfl

/-- C2 (witness for the amended theorem): the custom-parameter average at a
concrete database yielding 3 returns a non-NaN value, and the duration
average passes a concrete NaN through. -/
theorem avg_nan_normalization_amended_witness :
    (GoFloat.val 3).isNaN = false ∧
    getAverageEventDuration (ScanResult.ok (GoFloat.val 5)) = Except.ok (GoFloat.val 5) :=
  ⟨avg_nan_normalization_amended.1 (fun _ => ScanResult.ok (GoFloat.val 3))
      "revenue" (GoFloat.val 3) rfl,
   avg_nan_normalization_amended.2 (GoFloat.val 5)⟩

/-- C3 (counterexample): the claim states the normalizer overwrites each
record actor id with the server-resolved identity unconditionally.  With a
resolved identity "user-42" and a record whose client-supplied actor id is
empty, the normalized record keeps the empty actor id, not the server
identity. -/
theorem normalize_keeps_empty_actor_counterexample :
    sampleCtx.userId = "user-42" ∧
    ((normalizeBatch sampleCtx [sampleEventAnon]).map (fun e => e.userID)) = [""] ∧
    ("" : String) ≠ "user-42" := by
  refine ⟨rfl, by decide, by decide⟩

/-- C3 (amended): the normalizer overwrites the actor id with the
server-resolved identity only when the client-supplied actor id is
non-empty; a record submitted with an empty actor id keeps it empty. -/
theorem normalize_actor_overwrite_amended (ctx : RequestCtx)
    (events : List AnalyticsEvent) (i : Nat) (h : i < events.length)
    (h2 : i < (normalizeBatch ctx events).length) :
    ((normalizeBatch ctx events).get ⟨i, h2⟩).userID
      = if (events.get ⟨i, h⟩).userID = "" then (events.get ⟨i, h⟩).userID
        else ctx.userId := by
  rw [normalizeBatch_get ctx events i h h2, normalizeEvent_userID]

/-- C3 (witness): the amended theorem applied to a concrete batch holding
one record with a non-empty client-supplied actor id. -/
theorem normalize_actor_overwrite_amended_witness :
    ((normalizeBatch sampleCtx [sampleEventNamed]).get ⟨0, by decide⟩).userID
      = if (([sampleEventNamed] : List AnalyticsEvent).get ⟨0, by decide⟩).userID = ""
          then (([sampleEventNamed] : List AnalyticsEvent).get ⟨0, by decide⟩).userID
          else sampleCtx.userId :=
  normalize_actor_overwrite_amended sampleCtx [sampleEventNamed] 0 (by decide) (by decide)

/-- C4: for any interval outside the enumerated set, both time-bucketed
store queries fail with the interval validation error, and their outcome is
independent of the event table and bucketing — no query is issued to the
store. -/
theorem invalid_interval_no_store_operation (interval : String)
    (h : IsValidInterval interval = false) (b₁ b₂ : Nat → Nat)
    (t₁ t₂ : List AnalyticsEvent) (start fin : Nat) (eventTypeFilter : String) :
    getEventCountsOverTime b₁ t₁ interval start fin eventTypeFilter
        = Except.error ("invalid interval: " ++ interval) ∧
    getUniqueUsersOverTime b₁ t₁ interval start fin
        = Except.error ("invalid interval: " ++ interval) ∧
    getEventCountsOverTime b₁ t₁ interval start fin eventTypeFilter
        = getEventCountsOverTime b₂ t₂ interval start fin eventTypeFilter ∧
    getUniqueUsersOverTime b₁ t₁ interval start fin
        = getUniqueUsersOverTime b₂ t₂ interval start fin := by
  unfold getEventCountsOverTime getUniqueUsersOverTime
  simp [h]

/-- C4 (witness): the rejection at the concrete interval "fortnight". -/
theorem invalid_interval_no_store_operation_witness :
    getEventCountsOverTime id [] "fortnight" 0 0 ""
        = Except.error ("invalid interval: " ++ "fortnight") :=
  (invalid_interval_no_store_operation "fortnight" rfl id id [] [] 0 0 "").1

/-- C5 (counterexample): the claim states all records of a batch carry the
same server timestamp taken from a single clock read.  The normalization
loop reads the clock once per record: with a clock that advances between
reads, a two-record batch comes out with two different timestamps. -/
theorem batch_timestamps_differ_counterexample :
    ((normalizeBatch sampleCtx [sampleEventAnon, sampleEventAnon]).map
        (fun e => e.timestamp)) = [1000, 1001] ∧ (1000 : Nat) ≠ 1001 := by
  refine ⟨by decide, by decide⟩

/-- C5 (amended): the normalizer stamps each record with its own clock read:
record i of the batch carries the value of the i-th `time.Now()` read, so
records of one batch may carry distinct server timestamps. -/
theorem per_record_timestamp_amended (ctx : RequestCtx)
    (events : List AnalyticsEvent) (i : Nat) (h : i < events.length)
    (h2 : i < (normalizeBatch ctx events).length) :
    ((normalizeBatch ctx events).get ⟨i, h2⟩).timestamp = ctx.clock i := by
  rw [normalizeBatch_get ctx events i h h2]
  rfl

/-- C5 (witness): the amended theorem applied to the second record of a
concrete two-record batch. -/
theorem per_record_timestamp_amended_witness :
    ((normalizeBatch sampleCtx [sampleEventAnon, sampleEventNamed]).get
        ⟨1, by decide⟩).timestamp = sampleCtx.clock 1 :=
  per_record_timestamp_amended sampleCtx [sampleEventAnon, sampleEventNamed] 1
    (by decide) (by decide)

/-- C6: for the topPath endpoint, an absent limit parameter defaults to 10;
a supplied limit that is zero or fails to parse as an unsigned integer is a
validation error; and every accepted limit is used exactly as supplied —
the store-side zero-to-10 replacement never alters it, since an accepted
limit is never zero. -/
theorem topPath_limit_validation :
    topPathLimit "" = Except.ok 10 ∧
    (∀ s : String, s ≠ "" → (parseUint64 s = none ∨ parseUint64 s = some 0) →
      topPathLimit s
        = Except.error "Invalid limit parameter. Must be a positive integer.") ∧
    (∀ (s : String) (n : Nat), s ≠ "" → topPathLimit s = Except.ok n →
      parseUint64 s = some n ∧ n ≠ 0 ∧ getTopNPagePathsLimit n = n) := by
  refine ⟨rfl, ?_, ?_⟩
  · intro s hs hp
    unfold topPathLimit
    rw [if_neg (by simpa using hs)]
    rcases hp with hp | hp <;> rw [hp]
    rfl
  · intro s n hs h
    unfold topPathLimit at h
    rw [if_neg (by simpa using hs)] at h
    split at h
    · exact Except.noConfusion h
    · rename_i m hp
      split at h
      · exact Except.noConfusion h
      · rename_i hm
        injection h with h
        subst h
        have hm0 : m ≠ 0 := by simpa using hm
        exact ⟨hp, hm0, by simp [getTopNPagePathsLimit, hm0]⟩

/-- C6 (witness): limit omitted gives 10; limit "0" is rejected; the
accepted limit "25" is used as 25. -/
theorem topPath_limit_validation_witness :
    topPathLimit "" = Except.ok 10 ∧
    topPathLimit "0"
      = Except.error "Invalid limit parameter. Must be a positive integer." ∧
    (parseUint64 "25" = some 25 ∧ 25 ≠ 0 ∧ getTopNPagePathsLimit 25 = 25) :=
  ⟨topPath_limit_validation.1,
   topPath_limit_validation.2.1 "0" (by decide) (Or.inr (by decide)),
   topPath_limit_validation.2.2 "25" 25 (by decide) rfl⟩

/-- C7: the stored origin address always equals the transport-observed
caller address, and two incoming batches identical except for their
client-supplied origin-address fields are processed to the same response
and the same stored records. -/
theorem stored_ip_ignores_client_value (ctx : RequestCtx) (insertOk : Bool)
    (events : List AnalyticsEvent) (g : AnalyticsEvent → String) :
    trackEvent ctx insertOk (events.map (fun e => { e with ipAddress := g e }))
        = trackEvent ctx insertOk events ∧
    (∀ (i : Nat) (e : AnalyticsEvent),
      (normalizeEvent ctx i e).ipAddress = ctx.clientIP) := by
  have hb : normalizeBatch ctx (events.map (fun e => { e with ipAddress := g e }))
      = normalizeBatch ctx events := by
    unfold normalizeBatch
    rw [List.enum_map, List.map_map]
    refine List.map_congr_left ?_
    rintro ⟨i, e⟩ _
    simpa [Function.comp, Prod.map] using normalizeEvent_ip_invariant ctx i e (g e)
  constructor
  · unfold trackEvent
    simp only [List.length_map, hb]
  · intro i e
    rfl

/-- C8: a row of the time-bucketed event-count query carries the dimension
label exactly when an eventType filter was supplied, and then the label
equals the supplied filter value; with no filter the dimension is nil, not
a default value. -/
theorem event_count_dimension_matches_filter
    (bucketOf : Nat → Nat) (table : List AnalyticsEvent) (interval : String)
    (start fin : Nat) (eventTypeFilter : String)
    (rows : List EventTypeCountByTime) (r : EventTypeCountByTime)
    (hq : getEventCountsOverTime bucketOf table interval start fin eventTypeFilter
        = Except.ok rows)
    (hr : r ∈ rows) :
    r.eventType = if eventTypeFilter = "" then none else some eventTypeFilter := by
  unfold getEventCountsOverTime at hq
  split at hq
  · exact absurd hq (by simp)
  · injection hq with hq
    subst hq
    unfold eventCountsQueryRows at hr
    by_cases hf : eventTypeFilter = ""
    · simp only [hf, bne_self_eq_false, Bool.false_eq_true, if_false] at hr
      obtain ⟨b, hb, rfl⟩ := List.mem_map.1 hr
      simp [hf]
    · have hft : (eventTypeFilter != "") = true := by simpa using hf
      simp only [hft, if_true] at hr
      obtain ⟨k, hk, rfl⟩ := List.mem_map.1 hr
      rw [List.mem_dedup] at hk
      obtain ⟨e, he, hke⟩ := List.mem_map.1 hk
      rw [List.mem_filter] at he
      have h2 := he.2
      simp only [hft, Bool.not_true, Bool.false_or, Bool.and_eq_true,
        decide_eq_true_eq, beq_iff_eq] at h2
      rw [if_neg hf, ← hke]
      exact congrArg some h2.2

/-- C9: an empty ingestion batch returns HTTP 200 without calling the store,
and the store writer itself issues no batch-append for an empty batch. -/
theorem empty_batch_success_no_write (ctx : RequestCtx) (insertOk prepareOk : Bool)
    (appendOk : AnalyticsEvent → Bool) (sendOk : Bool) :
    trackEvent ctx insertOk [] = (200, none) ∧
    insertAnalyticsEvents prepareOk appendOk sendOk [] = Except.ok none :=
  ⟨rfl, rfl⟩

/-- C10: in each of the three row-returning aggregation queries, a row that
fails to scan is omitted while the rows before and after it are still
scanned, the query still succeeds, and the returned sequence is strictly
shorter than what the driver produced. -/
theorem scan_failure_skips_row_and_continues (isFilteringByType : Bool)
    (pre post : List (List DBValue)) (badC badU badT : List DBValue)
    (hC : scanEventCountRow isFilteringByType badC = none)
    (hU : scanUniqueUsersRow badU = none)
    (hT : scanTopPathRow badT = none) :
    execEventCountsScan isFilteringByType (pre ++ badC :: post) none
        = Except.ok (scanLoop (scanEventCountRow isFilteringByType) pre
            ++ scanLoop (scanEventCountRow isFilteringByType) post) ∧
    execUniqueUsersScan (pre ++ badU :: post) none
        = Except.ok (scanLoop scanUniqueUsersRow pre
            ++ scanLoop scanUniqueUsersRow post) ∧
    execTopPathsScan (pre ++ badT :: post) none
        = Except.ok (scanLoop scanTopPathRow pre ++ scanLoop scanTopPathRow post) ∧
    (scanLoop (scanEventCountRow isFilteringByType) (pre ++ badC :: post)).length
        < (pre ++ badC :: post).length := by
  have hcons : ∀ {α β : Type} (scan : α → Option β) (x : α) (xs : List α),
      scan x = none → scanLoop scan (x :: xs) = scanLoop scan xs := by
    intro α β scan x xs hx
    simp [scanLoop, hx]
  refine ⟨?_, ?_, ?_, ?_⟩
  · simp [execEventCountsScan, scanLoop_append, hcons _ _ _ hC]
  · simp [execUniqueUsersScan, scanLoop_append, hcons _ _ _ hU]
  · simp [execTopPathsScan, scanLoop_append, hcons _ _ _ hT]
  · rw [scanLoop_append, hcons _ _ _ hC]
    have h1 := scanLoop_length_le (scanEventCountRow isFilteringByType) pre
    have h2 := scanLoop_length_le (scanEventCountRow isFilteringByType) post
    simp only [List.length_append, List.length_cons]
    omega

/-- Concrete click event used by the C8 witness. -/
def sampleClickEvent : AnalyticsEvent :=
  { sampleEventAnon with eventType := "click", timestamp := 3 }

/-- C8 (witness): over a one-event table queried with filter "click", the
single returned row carries dimension "click". -/
theorem event_count_dimension_matches_filter_witness :
    ({ time := 0, eventType := some "click", count := 1 } : EventTypeCountByTime).eventType
      = if ("click" : String) = "" then none else some "click" :=
  event_count_dimension_matches_filter (fun t => t / 10 * 10) [sampleClickEvent]
    "Day" 0 100 "click"
    (eventCountsQueryRows (fun t => t / 10 * 10) [sampleClickEvent] 0 100 "click")
    { time := 0, eventType := some "click", count := 1 } rfl (by decide)

/-- C10 (witness): a malformed (empty) row between two well-formed rows is
dropped from the unique-user scan while both neighbors survive and the
query succeeds. -/
theorem scan_failure_skips_row_and_continues_witness :
    execUniqueUsersScan
        ([[DBValue.vTime 1, DBValue.vUInt 2]] ++ [] :: [[DBValue.vTime 3, DBValue.vUInt 4]])
        none
      = Except.ok (scanLoop scanUniqueUsersRow [[DBValue.vTime 1, DBValue.vUInt 2]]
          ++ scanLoop scanUniqueUsersRow [[DBValue.vTime 3, DBValue.vUInt 4]]) :=
  (scan_failure_skips_row_and_continues true
    [[DBValue.vTime 1, DBValue.vUInt 2]] [[DBValue.vTime 3, DBValue.vUInt 4]]
    [] [] [] rfl rfl rfl).2.1
